import Mathlib

/-!
Shallow embedding of the UCVM repository's one-dimensional velocity model
(`ucvm/models/velocity/onedimensional/onedimensional.py`), the acceptance-test
comparison loop (`ucvm/src/shared/test.py`), and the installer's byte
formatter (`setup.py`), together with theorems settling the frozen claims.

Python floats are modelled as exact rationals (`ℚ`); every concrete value a
theorem evaluates is one at which IEEE double arithmetic is exact or rounds to
the same number, so the rational model agrees with the Python runtime there.
Python `None` is modelled as `Option.none`; a Python run-time crash
(`TypeError` / `IndexError` on a `None` or a missing list index) makes the
modelled function return `none` at top level.
-/

/-
Batteries marks the rational-arithmetic operations irreducible; re-marking
them semireducible (for this file only) lets concrete evaluations go through
`decide`/`rfl`.
-/
attribute [local semireducible] Rat.mul Rat.add Rat.sub Rat.inv

namespace UCVM

/-! ### String constants (Python string literals used by the embedded code) -/

def strEmpty : String := ""
def strComma : String := ","
def strDot : String := "."
def strSlash : String := "/"
def strDash : String := "-"
def strSpace : String := " "
def strData : String := "data"
def strMdl : String := ".mdl"
def strLinear : String := "linear"
def strNoneTok : String := "none"
def strScecName : String := "SCEC 1D"
def interpTag : String := " (interpolated)"
def str0bytes : String := "0 bytes"
def str1byte : String := "1 byte"
def strBytes : String := "bytes"
def strKB : String := "kB"
def strMB : String := "MB"
def strGB : String := "GB"
def strTB : String := "TB"
def strPB : String := "PB"

/-! ### Data model -/

/-- One entry of a parsed 1D profile.  In the Python source a layer is the list
`[current_depth, p_velocity, s_velocity, density, qp_attenuation, qs_attenuation]`
built by `_parse_bbp_model` / `_parse_scec_model`; `qp`/`qs` (and, defensively,
the other physical fields in `_get_velocity_data`) may be Python `None`. -/
structure Layer where
  depth : ℚ
  vp : Option ℚ
  vs : Option ℚ
  density : Option ℚ
  qp : Option ℚ
  qs : Option ℚ
deriving DecidableEq, Repr

/-- The `VelocityProperties` named tuple from `ucvm.src.shared`: five physical
fields and five provenance strings, in the positional order used by
`OneDimensionalVelocityModel._get_velocity_data` when constructing it. -/
structure VelocityProperties where
  vp : Option ℚ
  vs : Option ℚ
  density : Option ℚ
  qp : Option ℚ
  qs : Option ℚ
  vp_source : Option String
  vs_source : Option String
  density_source : Option String
  qp_source : Option String
  qs_source : Option String
deriving DecidableEq, Repr

/-! ### `OneDimensionalVelocityModel._get_velocity_data` -/

/-- The scanning loop of `_get_velocity_data` (onedimensional.py lines 75-82):
`for layer in layers: previous_layer = current_layer; current_layer = layer;
if layer[0] > depth: break`, started with both trackers `None`.  Returns the
final `(previous_layer, current_layer)` pair. -/
def scanLayers (depth : ℚ) : List Layer → Option Layer → Option Layer →
    Option Layer × Option Layer
  | [], prev, cur => (prev, cur)
  | l :: rest, _prev, cur =>
    if l.depth > depth then (cur, some l) else scanLayers depth rest cur (some l)

/-- One field of the interpolation branch (lines 95-104):
`percentage * (current[i] - previous[i]) + previous[i] if previous[i] is not
None else None`.  When `previous[i]` is a number but `current[i]` is Python
`None`, the subtraction raises `TypeError`: modelled as outer `none`. -/
def interpField (pct : ℚ) (pf cf : Option ℚ) : Option (Option ℚ) :=
  match pf, cf with
  | none, _ => some none
  | some pv, some cv => some (some (pct * (cv - pv) + pv))
  | some _, none => none

/-- The branch structure of `_get_velocity_data` after the scan (lines 84-111),
as a function of the final `(previous_layer, current_layer)` pair.  A `None`
`previous_layer` (query depth above the first layer) dereferences `None` in
both remaining branches, i.e. crashes: modelled as `none`. -/
def gvdResult (depth : ℚ) (interpolate : Bool) (name : String) :
    Option Layer × Option Layer → Option VelocityProperties
  | (_, none) => none
  | (none, some _) => none
  | (some p, some c) =>
    if p = c then
      some ⟨c.vp, c.vs, c.density, c.qp, c.qs,
            some name, some name, some name, some name, some name⟩
    else if interpolate then
      let pct := (depth - p.depth) / (c.depth - p.depth)
      match interpField pct p.vp c.vp, interpField pct p.vs c.vs,
            interpField pct p.density c.density, interpField pct p.qp c.qp,
            interpField pct p.qs c.qs with
      | some v1, some v2, some v3, some v4, some v5 =>
        some ⟨v1, v2, v3, v4, v5,
              some (name ++ interpTag), some (name ++ interpTag),
              some (name ++ interpTag), some (name ++ interpTag),
              some (name ++ interpTag)⟩
      | _, _, _, _, _ => none
    else
      some ⟨p.vp, p.vs, p.density, p.qp, p.qs,
            some name, some name, some name, some name, some name⟩

/-- `OneDimensionalVelocityModel._get_velocity_data(depth, layers, interpolate,
name)` (lines 72-111).  The Python method first mutates its argument with
`layers.append(layers[-1])` (an `IndexError` on an empty list, modelled as
`none`) and then scans the extended list. -/
def get_velocity_data (depth : ℚ) (layers : List Layer) (interpolate : Bool)
    (name : String) : Option VelocityProperties :=
  match layers.getLast? with
  | none => none
  | some last =>
    gvdResult depth interpolate name (scanLayers depth (layers ++ [last]) none none)

/-- The in-place mutation `layers.append(layers[-1])` performed by each call of
`_get_velocity_data`: the list the caller passed in grows by one duplicate of
its final element. -/
def mutatedLayers (layers : List Layer) : List Layer :=
  match layers.getLast? with
  | none => layers
  | some last => layers ++ [last]

/-! ### `setup.py` `sizeof_fmt` -/

/-- Bounded-fuel integer logarithm helper for `log1024`. -/
def log1024Aux : ℕ → ℕ → ℕ
  | 0, _ => 0
  | fuel + 1, n => if n < 1024 then 0 else log1024Aux fuel (n / 1024) + 1

/-- Models Python's `int(log(num, 1024))` for `num > 1` (setup.py line 84).
Exact for every integer below `1024 ^ 64`; at the powers of 1024 the claims
evaluate, the floating-point `log` also yields the exact integer. -/
def log1024 (n : ℕ) : ℕ := log1024Aux 64 n

/-- Left-pads a string with zeros to the requested length. -/
def padZeros (s : String) (k : ℕ) : String :=
  String.mk (List.replicate (k - s.length) '0') ++ s

/-- Models Python's `'{:.Nf}'.format(q)` fixed-point formatting (setup.py
lines 87-88) on a rational.  Rounding uses floor of `q·10^N + 1/2`; at every
value this development formats, `q·10^N` is an integer, so no rounding-mode
subtlety arises. -/
def formatFixed (q : ℚ) (dec : ℕ) : String :=
  let m : ℤ := Rat.floor (q * 10 ^ dec + 1 / 2)
  let sign := if m < 0 then strDash else strEmpty
  let a : ℕ := m.natAbs
  if dec = 0 then sign ++ toString a
  else sign ++ toString (a / 10 ^ dec) ++ strDot ++ padZeros (toString (a % 10 ^ dec)) dec

/-- The `unit_list` table of `sizeof_fmt` (setup.py lines 74-81). -/
def unit_list : List (String × ℕ) :=
  [(strBytes, 0), (strKB, 0), (strMB, 1), (strGB, 2), (strTB, 2), (strPB, 2)]

/-- `sizeof_fmt(num)` from setup.py lines 67-93.  When none of the three `if`
branches fires (negative input, or input strictly between 0 and 1), the Python
function falls off the end and returns `None`. -/
def sizeof_fmt (num : ℚ) : Option String :=
  if 1 < num then
    let exponent := min (log1024 (Rat.floor num).toNat) (unit_list.length - 1)
    let quotient := num / (1024 : ℚ) ^ exponent
    let ud := unit_list.getD exponent (strBytes, 0)
    some (formatFixed quotient ud.2 ++ strSpace ++ ud.1)
  else if num = 0 then some str0bytes
  else if num = 1 then some str1byte
  else none

/-! ### Parsing helpers: Python `str.split()` / `str.splitlines()` / `float()` -/

/-- Helper for `pysplit`: walks the character list accumulating the current
token. -/
def splitWsAux : List Char → List Char → List String
  | [], acc => if acc.isEmpty then [] else [String.mk acc.reverse]
  | c :: rest, acc =>
    if c.isWhitespace then
      if acc.isEmpty then splitWsAux rest [] else String.mk acc.reverse :: splitWsAux rest []
    else splitWsAux rest (c :: acc)

/-- Models Python `line.split()` (no argument): split on runs of whitespace,
discarding empty tokens. -/
def pysplit (s : String) : List String := splitWsAux s.toList []

/-- Helper for `splitlines`. -/
def splitNlAux : List Char → List Char → List String
  | [], acc => [String.mk acc.reverse]
  | c :: rest, acc =>
    if c = '\n' then String.mk acc.reverse :: splitNlAux rest []
    else splitNlAux rest (c :: acc)

/-- Models Python `text.splitlines(keepends=False)` for `\n`-separated text.
(Python additionally drops a final empty line after a trailing `\n`; that line
would be skipped by the parser's blank-line check anyway.) -/
def splitlines (s : String) : List String := splitNlAux s.toList []

/-- Numeric value of a digit list read left to right. -/
def digitsVal (cs : List Char) : ℕ := cs.foldl (fun n c => 10 * n + (c.toNat - 48)) 0

/-- Splits a character list at its first `'.'`, if any. -/
def breakDot : List Char → List Char × Option (List Char)
  | [] => ([], none)
  | c :: rest =>
    if c = '.' then ([], some rest)
    else
      let r := breakDot rest
      (c :: r.1, r.2)

/-- Unsigned part of `parseFloat`. -/
def parseUnsignedFloat (cs : List Char) : Option ℚ :=
  let br := breakDot cs
  match br.2 with
  | none =>
    if br.1.isEmpty then none
    else if br.1.all Char.isDigit then some (digitsVal br.1 : ℚ) else none
  | some fp =>
    if fp.contains '.' then none
    else if br.1.isEmpty && fp.isEmpty then none
    else if br.1.all Char.isDigit && fp.all Char.isDigit then
      some ((digitsVal br.1 : ℚ) + (digitsVal fp : ℚ) / (10 : ℚ) ^ fp.length)
    else none

/-- Models Python `float(token)` on plain decimal literals (optional sign,
digits, optional fraction), the only shape the BBP profile columns use; the
result is the exact decimal value as a rational.  (Python would also accept
exponent/infinity spellings; none occur in this development.)  `none` models
the `ValueError` Python raises on a non-numeric token. -/
def parseFloat (s : String) : Option ℚ :=
  match s.toList with
  | [] => none
  | c :: rest =>
    if c = '-' then (parseUnsignedFloat rest).map (fun q => -q)
    else if c = '+' then parseUnsignedFloat rest
    else parseUnsignedFloat (c :: rest)

/-- Modelled from the spec: `is_number` lives in `ucvm.src.shared.functions`,
which is not under src/; the spec (§4.5) says it "classifies a text token as
numeric without raising, used while parsing whitespace-delimited profile
text". -/
def is_number (s : String) : Bool := (parseFloat s).isSome

/-- Modelled from the spec: `calculate_scaled_density` lives in
`ucvm.src.shared.functions`, which is not under src/; the spec (§4.5) says
only that it is a deterministic, monotonic-increasing (in vp) Nafe–Drake-type
empirical estimate of density from vp.  No claim depends on its values. -/
def calculate_scaled_density (vp : ℚ) : ℚ := 1741 * vp / 1000

/-- Modelled from the spec: `calculate_scaled_vs` lives in
`ucvm.src.shared.functions`, which is not under src/; the spec (§4.5) says
only that it is a deterministic empirical estimate of vs from vp and density,
monotonic increasing in vp.  No claim depends on its values. -/
def calculate_scaled_vs (vp _density : ℚ) : ℚ := vp / 2

/-! ### `OneDimensionalVelocityModel._parse_bbp_model` (lines 27-45) -/

/-- `float(split_str[i])`, where a missing index is an `IndexError`. -/
def parseFloatAt (toks : List String) (i : ℕ) : Option ℚ := (toks.get? i).bind parseFloat

/-- The body of the numeric-line branch of `_parse_bbp_model` (lines 35-45):
given the running `current_depth` and the whitespace-split tokens, produce the
appended layer and the next `current_depth`.  Fields are computed in the
source's evaluation order (vp, density, vs, qp, qs, thickness); any parse
failure or missing mandatory index is a Python exception, modelled as `none`. -/
def bbpParsedLine (d : ℚ) (toks : List String) : Option (Layer × ℚ) :=
  match parseFloatAt toks 1 with
  | none => none
  | some vp =>
    let vpv := vp * 1000
    match (if 3 < toks.length then (parseFloatAt toks 3).map (fun x => x * 1000)
           else some (calculate_scaled_density vpv)) with
    | none => none
    | some dens =>
      match (if 2 < toks.length then (parseFloatAt toks 2).map (fun x => x * 1000)
             else some (calculate_scaled_vs vpv dens)) with
      | none => none
      | some vsv =>
        match (if 4 < toks.length then (parseFloatAt toks 4).map some else some none) with
        | none => none
        | some qp =>
          match (if 5 < toks.length then (parseFloatAt toks 5).map some else some none) with
          | none => none
          | some qs =>
            match parseFloatAt toks 0 with
            | none => none
            | some thick =>
              some (⟨d, some vpv, some vsv, some dens, qp, qs⟩, d + thick * 1000)

/-- One iteration of the `for line in text_info.splitlines(...)` loop of
`_parse_bbp_model`, over the state `(current_depth, layers)`: blank lines and
lines whose leading token is not numeric leave the state unchanged. -/
def bbpStep (st : ℚ × List Layer) (line : String) : Option (ℚ × List Layer) :=
  match pysplit line with
  | [] => some st
  | t0 :: _ =>
    if is_number t0 then
      (bbpParsedLine st.1 (pysplit line)).map (fun ld => (ld.2, st.2 ++ [ld.1]))
    else some st

/-- `OneDimensionalVelocityModel._parse_bbp_model(text_info, layers)`
(lines 27-45): folds `bbpStep` over the lines starting from
`current_depth = 0`, returning the final contents of the mutated `layers`
list. -/
def parse_bbp_model (text : String) (layers : List Layer) : Option (List Layer) :=
  ((splitlines text).foldlM bbpStep (0, layers)).map (fun st => st.2)

/-! ### `OneDimensionalVelocityModel._query` profile resolution (lines 113-160) -/

/-- Models `os.path.join(a, b)` for components without trailing separators
(the only shapes `_query` builds). -/
def joinPath (a b : String) : String := a ++ strSlash ++ b

/-- Models `x.strip().lower()` as applied to each comma token (line 125). -/
def pyStripLower (s : String) : String := s.trim.toLower

/-- The profile base name `_query` uses to build its candidate paths when a
`params` option is present (lines 125-143): with more than one comma token the
tokens are stripped/lowercased, a reserved `"linear"`/`"none"` token is removed
(first match only, `list.remove` semantics), and the rest are rejoined with
commas; with a single token the raw `params` string is used verbatim. -/
def effectiveBase (p : String) : String :=
  let split_str := (p.splitOn strComma).map pyStripLower
  if 1 < split_str.length then
    let cleaned :=
      if split_str.contains strLinear then split_str.erase strLinear
      else if split_str.contains strNoneTok then split_str.erase strNoneTok
      else split_str
    String.intercalate strComma cleaned
  else p

/-- The candidate profile paths `_query` builds (lines 123-149): with `params`,
current working directory first then the model's packaged `data` directory;
without `params`, only the packaged `data` directory path for the default
profile `"SCEC 1D"`. -/
def queryPaths (model_location : String) (params : Option String) : List String :=
  match params with
  | some p =>
    [joinPath strDot (effectiveBase p ++ strMdl),
     joinPath (joinPath model_location strData) (effectiveBase p ++ strMdl)]
  | none => [joinPath (joinPath model_location strData) (strScecName ++ strMdl)]

/-- The resolution loop and error check of `_query` (lines 151-157): take the
first existing candidate path; if none exists, `display_and_raise_error(13, …)`
raises the catalog error with code 13. -/
def resolveOrError (ex : String → Bool) (paths : List String) : Except ℕ String :=
  match paths.find? ex with
  | some p => Except.ok p
  | none => Except.error 13

/-! ### `run_acceptance_test` per-point comparison (test.py lines 86-97) -/

/-- Models `assertAlmostEqual(a, b, 0)`: passes iff `round(a - b, 0) == 0`,
i.e. iff `|a - b| ≤ 1/2` (Python rounds the half-unit tie to the even value 0).
Asserting against a live value of Python `None` raises `TypeError`, which
fails the test: modelled as `false`. -/
def almostEqual0 (a : Option ℚ) (b : ℚ) : Bool :=
  match a with
  | none => false
  | some x => decide (|x - b| ≤ 1 / 2)

/-- The body of the comparison loop of `run_acceptance_test` for one grid point
(test.py lines 86-97): `none` when the point is skipped by the `continue`
branch, otherwise `some` of whether all three assertions pass.  Python's
operator precedence makes the skip condition
`(ref_vp ≤ 0 and vp is None) or (ref_vs ≤ 0 and vs is None) or
(ref_density ≤ 0 and density is None)`. -/
def pointCheck (r0 r1 r2 : ℚ) (vp vs density : Option ℚ) : Option Bool :=
  if (r0 ≤ 0 ∧ vp = none) ∨ (r1 ≤ 0 ∧ vs = none) ∨ (r2 ≤ 0 ∧ density = none) then
    none
  else
    some (almostEqual0 vp r0 && almostEqual0 vs r1 && almostEqual0 density r2)

/-! ### Concrete fixtures used by witnesses and counterexamples -/

/-- The BBP profile line of testable property 2. -/
def bbpLine1 : String := "1.00 5.00 2.89 2.70"

/-- Two BBP profile lines, to exhibit the accumulated depth of the second. -/
def bbpTwoLines : String := "1.00 5.00 2.89 2.70\n2.00 6.00 3.46 3.00"

/-- The layer list `_parse_bbp_model` produces from `bbpLine1`. -/
def layersEx : List Layer := [⟨0, some 5000, some 2890, some 2700, none, none⟩]

/-- A profile name (the lower-cased default profile). -/
def nameEx : String := "scec 1d"

/-- The `VelocityProperties` the depth lookup returns for `layersEx` at depth 0. -/
def propsEx : VelocityProperties :=
  ⟨some 5000, some 2890, some 2700, none, none,
   some nameEx, some nameEx, some nameEx, some nameEx, some nameEx⟩

/-- A non-numeric-leading-token profile line. -/
def lineHash : String := "# layers"

/-- A model installation directory. -/
def locEx : String := "/install/models/1d"

/-- A single-token params value. -/
def paramEx : String := "bbp one"

/-- A file-existence predicate under which every path exists. -/
def exAll : String → Bool := fun _ => true

/-- The string the claim expects `sizeof_fmt` to produce at 1024. -/
def claimedKB : String := "1.0 kB"

/-- What `sizeof_fmt` actually produces at 1024. -/
def oneKB : String := "1 kB"

/-- `sizeof_fmt` at 1048576. -/
def oneMB : String := "1.0 MB"

/-- `sizeof_fmt` at 1073741824. -/
def oneGB : String := "1.00 GB"

/-- A one-layer profile used by witnesses. -/
def layers1Ex : List Layer := [⟨0, some 100, some 50, some 60, none, none⟩]

/-! ### Helper lemmas -/

/-- If no layer of `M`, nor `x` nor `y`, lies strictly below the query depth,
the scan runs off the end of `M ++ [x, y]` and reports its last two
elements. -/
theorem scanLayers_all_le {d : ℚ} :
    ∀ (M : List Layer) (x y : Layer) (p c : Option Layer),
      (∀ z ∈ M, z.depth ≤ d) → x.depth ≤ d → y.depth ≤ d →
      scanLayers d (M ++ [x, y]) p c = (some x, some y) := by
  intro M
  induction M with
  | nil =>
    intro x y p c _ hx hy
    simp [scanLayers, not_lt.mpr hx, not_lt.mpr hy]
  | cons a t ih =>
    intro x y p c hM hx hy
    have ha : a.depth ≤ d := hM a (by simp)
    simp only [List.cons_append, scanLayers, not_lt.mpr ha, if_neg (not_lt.mpr ha)]
    exact ih x y c (some a) (fun z hz => hM z (by simp [hz])) hx hy

/-- Duplicating the trailing sentinel once more does not change the scan:
the first copy already decides whatever the second copy would. -/
theorem scanLayers_dup {d : ℚ} :
    ∀ (M : List Layer) (a : Layer) (p c : Option Layer), M.getLast? = some a →
      scanLayers d (M ++ [a, a]) p c = scanLayers d (M ++ [a]) p c := by
  intro M
  induction M with
  | nil => intro a p c h; simp at h
  | cons x t ih =>
    intro a p c h
    cases t with
    | nil =>
      simp only [List.getLast?_singleton, Option.some.injEq] at h
      subst h
      by_cases hx : x.depth > d
      · simp [scanLayers, hx]
      · simp [scanLayers, hx]
    | cons y s =>
      rw [List.getLast?_cons_cons] at h
      by_cases hx : x.depth > d
      · simp [scanLayers, hx]
      · simp only [List.cons_append, scanLayers, if_neg hx]
        exact ih a c (some x) h

/-- Unfolds `get_velocity_data` once the last layer is known. -/
theorem get_velocity_data_eq {L : List Layer} {a : Layer} (h : L.getLast? = some a)
    (d : ℚ) (i : Bool) (n : String) :
    get_velocity_data d L i n = gvdResult d i n (scanLayers d (L ++ [a]) none none) := by
  unfold get_velocity_data
  rw [h]

/-- Each `some` branch of the post-scan dispatch sets all five provenance
strings, either all to the bare name or all to the interpolated name. -/
theorem gvdResult_sources (d : ℚ) (i : Bool) (n : String)
    (pc : Option Layer × Option Layer) (props : VelocityProperties)
    (h : gvdResult d i n pc = some props) :
    (props.vp_source = some n ∧ props.vs_source = some n ∧
     props.density_source = some n ∧ props.qp_source = some n ∧
     props.qs_source = some n) ∨
    (props.vp_source = some (n ++ interpTag) ∧ props.vs_source = some (n ++ interpTag) ∧
     props.density_source = some (n ++ interpTag) ∧ props.qp_source = some (n ++ interpTag) ∧
     props.qs_source = some (n ++ interpTag)) := by
  obtain ⟨po, co⟩ := pc
  cases co with
  | none => simp [gvdResult] at h
  | some c =>
    cases po with
    | none => simp [gvdResult] at h
    | some p =>
      simp only [gvdResult] at h
      split at h
      · obtain rfl := Option.some_inj.mp h
        left; exact ⟨rfl, rfl, rfl, rfl, rfl⟩
      · split at h
        · split at h
          · obtain rfl := Option.some_inj.mp h
            right; exact ⟨rfl, rfl, rfl, rfl, rfl⟩
          · exact absurd h (by simp)
        · obtain rfl := Option.some_inj.mp h
          left; exact ⟨rfl, rfl, rfl, rfl, rfl⟩

/-- A successfully parsed BBP line yields a layer whose depth-to-top is the
accumulated depth the parser carried into that line. -/
theorem bbpParsedLine_depth (d : ℚ) (toks : List String) (l : Layer) (d' : ℚ)
    (h : bbpParsedLine d toks = some (l, d')) : l.depth = d := by
  simp only [bbpParsedLine] at h
  split at h
  · exact absurd h (by simp)
  · split at h
    · exact absurd h (by simp)
    · split at h
      · exact absurd h (by simp)
      · split at h
        · exact absurd h (by simp)
        · split at h
          · exact absurd h (by simp)
          · split at h
            · exact absurd h (by simp)
            · obtain ⟨h1, _⟩ := Prod.mk.injEq _ _ _ _ ▸ Option.some_inj.mp h
              exact h1 ▸ rfl

/-- A line whose leading token is not numeric (in particular a blank line)
leaves the parser state unchanged. -/
theorem bbpStep_skip (st : ℚ × List Layer) (line : String)
    (h : is_number ((pysplit line).headD strEmpty) = false) : bbpStep st line = some st := by
  unfold bbpStep
  cases hp : pysplit line with
  | nil => rfl
  | cons t0 ts =>
    rw [hp] at h
    simp only [List.headD_cons] at h
    simp [h]

/-- A successful parser step either leaves the layer list unchanged or
appends exactly one layer, whose depth-to-top is the accumulated depth. -/
theorem bbpStep_appends (line : String) (d : ℚ) (L : List Layer) (r : ℚ × List Layer)
    (h : bbpStep (d, L) line = some r) :
    r.2 = L ∨ ∃ l, r.2 = L ++ [l] ∧ l.depth = d := by
  unfold bbpStep at h
  cases hp : pysplit line with
  | nil =>
    rw [hp] at h
    obtain rfl := Option.some_inj.mp h
    exact Or.inl rfl
  | cons t0 ts =>
    rw [hp] at h
    dsimp only at h
    by_cases hn : is_number t0
    · rw [if_pos hn] at h
      cases hb : bbpParsedLine d (t0 :: ts) with
      | none => rw [hb] at h; exact absurd h (by simp)
      | some ld =>
        rw [hb] at h
        simp only [Option.map_some'] at h
        obtain rfl := Option.some_inj.mp h
        exact Or.inr ⟨ld.1, rfl, bbpParsedLine_depth d (t0 :: ts) ld.1 ld.2 (by rw [hb])⟩
    · rw [if_neg hn] at h
      obtain rfl := Option.some_inj.mp h
      exact Or.inl rfl

/-- The resolution loop raises catalog error 13 exactly when no candidate
path exists. -/
theorem resolveOrError_error_iff (ex : String → Bool) (paths : List String) :
    resolveOrError ex paths = Except.error 13 ↔ ∀ p ∈ paths, ex p = false := by
  unfold resolveOrError
  constructor
  · intro h p hp
    cases hf : paths.find? ex with
    | none => simpa using List.find?_eq_none.mp hf p hp
    | some q => rw [hf] at h; exact absurd h (by simp)
  · intro h
    rw [List.find?_eq_none.mpr (fun x hx => by simp [h x hx])]

/-- When resolution succeeds it returns the first existing candidate. -/
theorem resolveOrError_ok_first (ex : String → Bool) :
    ∀ (paths : List String) (p : String), resolveOrError ex paths = Except.ok p →
      ex p = true ∧ ∃ pre post, paths = pre ++ p :: post ∧ ∀ q ∈ pre, ex q = false := by
  intro paths
  induction paths with
  | nil => intro p h; simp [resolveOrError, List.find?] at h
  | cons a t ih =>
    intro p h
    unfold resolveOrError at h
    rw [List.find?_cons] at h
    cases hx : ex a with
    | true =>
      rw [hx] at h
      simp only at h
      obtain rfl : a = p := by injection h
      exact ⟨hx, [], t, rfl, by simp⟩
    | false =>
      rw [hx] at h
      simp only at h
      obtain ⟨hexp, pre, post, heq, hpre⟩ := ih p h
      exact ⟨hexp, a :: pre, post, by rw [heq]; rfl,
             fun q hq => by
               rcases List.mem_cons.mp hq with rfl | hq2
               · exact hx
               · exact hpre q hq2⟩

/-- The per-point skip condition, as the code evaluates it. -/
theorem pointCheck_skip_iff (r0 r1 r2 : ℚ) (vp vs density : Option ℚ) :
    pointCheck r0 r1 r2 vp vs density = none ↔
      (r0 ≤ 0 ∧ vp = none) ∨ (r1 ≤ 0 ∧ vs = none) ∨ (r2 ≤ 0 ∧ density = none) := by
  unfold pointCheck
  split_ifs with h
  · simp [h]
  · simp [h]

/-- When all three live values are present the point is never skipped and all
three assertions run. -/
theorem pointCheck_asserts (r0 r1 r2 : ℚ) (a b c : ℚ) :
    pointCheck r0 r1 r2 (some a) (some b) (some c) =
      some (decide (|a - r0| ≤ 1 / 2) && decide (|b - r1| ≤ 1 / 2) &&
            decide (|c - r2| ≤ 1 / 2)) := by
  unfold pointCheck
  rw [if_neg (by simp)]
  rfl

/-- The sentinel-append mutation keeps the list non-empty. -/
theorem mutatedLayers_ne_nil {L : List Layer} (hne : L ≠ []) : mutatedLayers L ≠ [] := by
  unfold mutatedLayers
  rw [List.getLast?_eq_getLast L hne]
  simp

/-- Iterating the sentinel-append mutation keeps the list non-empty. -/
theorem mutatedLayers_iterate_ne_nil (k : ℕ) {L : List Layer} (hne : L ≠ []) :
    mutatedLayers^[k] L ≠ [] := by
  induction k with
  | zero => exact hne
  | succ m ih =>
    rw [Function.iterate_succ_apply']
    exact mutatedLayers_ne_nil ih

/-- One sentinel append does not change the depth-lookup result. -/
theorem gvd_mutated (d : ℚ) (i : Bool) (n : String) (L : List Layer) (hne : L ≠ []) :
    get_velocity_data d (mutatedLayers L) i n = get_velocity_data d L i n := by
  have hlast : L.getLast? = some (L.getLast hne) := List.getLast?_eq_getLast L hne
  have hm : mutatedLayers L = L ++ [L.getLast hne] := by unfold mutatedLayers; rw [hlast]
  rw [hm, get_velocity_data_eq (List.getLast?_concat L) d i n,
      get_velocity_data_eq hlast d i n, List.append_assoc]
  rw [show ([L.getLast hne] ++ [L.getLast hne] : List Layer) =
        [L.getLast hne, L.getLast hne] from rfl]
  rw [scanLayers_dup L (L.getLast hne) none none hlast]

/-! ### Claim theorems -/

/-- Claim C1 is falsified by the code: the layer list parsed from the BBP line
`"1.00 5.00 2.89 2.70"` has `qp = None`, yet the depth lookup returns a
`VelocityProperties` whose `qp` is absent while `qp_source` is set to the
profile name — a provenance string without a value. -/
theorem claim1_provenance_counterexample :
    parse_bbp_model bbpLine1 [] = some layersEx ∧
    get_velocity_data 0 layersEx false nameEx = some propsEx ∧
    propsEx.qp = none ∧ propsEx.qp_source = some nameEx := by
  refine ⟨by decide, by decide, rfl, rfl⟩

/-- Claim C1 amended: every `VelocityProperties` the depth lookup produces has
all five provenance strings set (all to the bare profile name, or all to the
name suffixed " (interpolated)"); hence a present value never lacks
provenance, but an absent field may still carry a provenance string. -/
theorem claim1_provenance_amended (d : ℚ) (L : List Layer) (i : Bool) (n : String)
    (props : VelocityProperties) (h : get_velocity_data d L i n = some props) :
    (props.vp_source = some n ∧ props.vs_source = some n ∧
     props.density_source = some n ∧ props.qp_source = some n ∧
     props.qs_source = some n) ∨
    (props.vp_source = some (n ++ interpTag) ∧ props.vs_source = some (n ++ interpTag) ∧
     props.density_source = some (n ++ interpTag) ∧ props.qp_source = some (n ++ interpTag) ∧
     props.qs_source = some (n ++ interpTag)) := by
  cases hL : L.getLast? with
  | none =>
    unfold get_velocity_data at h
    rw [hL] at h
    exact absurd h (by simp)
  | some a =>
    rw [get_velocity_data_eq hL d i n] at h
    exact gvdResult_sources d i n _ props h

/-- Witness for the amended C1 theorem at a concrete parsed profile. -/
theorem claim1_provenance_witness :
    (propsEx.vp_source = some nameEx ∧ propsEx.vs_source = some nameEx ∧
     propsEx.density_source = some nameEx ∧ propsEx.qp_source = some nameEx ∧
     propsEx.qs_source = some nameEx) ∨
    (propsEx.vp_source = some (nameEx ++ interpTag) ∧
     propsEx.vs_source = some (nameEx ++ interpTag) ∧
     propsEx.density_source = some (nameEx ++ interpTag) ∧
     propsEx.qp_source = some (nameEx ++ interpTag) ∧
     propsEx.qs_source = some (nameEx ++ interpTag)) :=
  claim1_provenance_amended 0 layersEx false nameEx propsEx (by decide)

/-- Claim C2 is falsified by the code: at a point whose reference marks vp as
not computed (−1) with the live vp absent, the whole point is skipped — the
vs comparison does not run even though the vs reference is computed (500 > 0)
and the live vs (9999) is present and far from it. -/
theorem claim2_skip_counterexample :
    pointCheck (-1) 500 500 none (some 9999) (some 500) = none ∧
    ¬ ((500 : ℚ) ≤ 0) ∧ (some (9999 : ℚ)) ≠ none := by
  refine ⟨by decide, by norm_num, by simp⟩

/-- Claim C2 amended: the acceptance-test loop skips a grid point as a whole
exactly when at least one of the three properties has a non-positive
reference sentinel and an absent live value; otherwise all three of vp, vs,
density are asserted equal to the reference within half a unit. -/
theorem claim2_skip_amended (r0 r1 r2 : ℚ) (vp vs density : Option ℚ) :
    (pointCheck r0 r1 r2 vp vs density = none ↔
      (r0 ≤ 0 ∧ vp = none) ∨ (r1 ≤ 0 ∧ vs = none) ∨ (r2 ≤ 0 ∧ density = none)) ∧
    (∀ a b c : ℚ, vp = some a → vs = some b → density = some c →
      pointCheck r0 r1 r2 vp vs density =
        some (decide (|a - r0| ≤ 1 / 2) && decide (|b - r1| ≤ 1 / 2) &&
              decide (|c - r2| ≤ 1 / 2))) := by
  refine ⟨pointCheck_skip_iff r0 r1 r2 vp vs density, ?_⟩
  intro a b c ha hb hc
  subst ha hb hc
  exact pointCheck_asserts r0 r1 r2 a b c

/-- Witness for the amended C2 theorem at a concrete point. -/
theorem claim2_skip_witness :
    pointCheck 10 20 30 (some 10) (some 20) (some 31) =
      some (decide (|(10 : ℚ) - 10| ≤ 1 / 2) && decide (|(20 : ℚ) - 20| ≤ 1 / 2) &&
            decide (|(31 : ℚ) - 30| ≤ 1 / 2)) :=
  (claim2_skip_amended 10 20 30 (some 10) (some 20) (some 31)).2 10 20 31 rfl rfl rfl

/-- Claim C3 is falsified by the code at 1024: the `unit_list` table assigns
kB zero decimals, so `sizeof_fmt(1024)` is "1 kB", not "1.0 kB". -/
theorem claim3_sizeof_counterexample : sizeof_fmt 1024 ≠ some claimedKB := by decide

/-- Claim C3 amended: `sizeof_fmt` maps 0 to "0 bytes", 1 to "1 byte", 1024 to
"1 kB" (kB has zero decimals), 1048576 to "1.0 MB" and 1073741824 to
"1.00 GB", with thresholds at powers of 1024 and the per-unit precisions of
`unit_list`. -/
theorem claim3_sizeof_amended :
    sizeof_fmt 0 = some str0bytes ∧ sizeof_fmt 1 = some str1byte ∧
    sizeof_fmt 1024 = some oneKB ∧ sizeof_fmt 1048576 = some oneMB ∧
    sizeof_fmt 1073741824 = some oneGB := by
  refine ⟨by decide, by decide, by decide, by decide, by decide⟩

/-- Claim C4: on layers [(0, vp 1000), (1000, vp 2000)] at depth 500, the
lookup with interpolation returns vp 1500 with every provenance string the
profile name suffixed " (interpolated)"; without interpolation it returns the
shallower layer's vp 1000 verbatim with the bare profile name. -/
theorem claim4_interpolation (n : String) :
    get_velocity_data 500
        [⟨0, some 1000, none, none, none, none⟩, ⟨1000, some 2000, none, none, none, none⟩]
        true n =
      some ⟨some 1500, none, none, none, none,
            some (n ++ interpTag), some (n ++ interpTag), some (n ++ interpTag),
            some (n ++ interpTag), some (n ++ interpTag)⟩ ∧
    get_velocity_data 500
        [⟨0, some 1000, none, none, none, none⟩, ⟨1000, some 2000, none, none, none, none⟩]
        false n =
      some ⟨some 1000, none, none, none, none,
            some n, some n, some n, some n, some n⟩ := by
  exact ⟨rfl, rfl⟩

/-- Claim C5: for a non-empty layer list ordered by increasing depth-to-top
and a query depth at or beyond the last layer's depth-to-top, the lookup
returns the last layer's values unchanged, with bare-name provenance,
identically for either interpolation setting. -/
theorem claim5_no_extrapolation (d : ℚ) (L : List Layer) (n : String) (hne : L ≠ [])
    (hsort : L.Pairwise (fun a b => a.depth ≤ b.depth))
    (hd : (L.getLast hne).depth ≤ d) :
    ∀ i : Bool, get_velocity_data d L i n =
      some ⟨(L.getLast hne).vp, (L.getLast hne).vs, (L.getLast hne).density,
            (L.getLast hne).qp, (L.getLast hne).qs,
            some n, some n, some n, some n, some n⟩ := by
  intro i
  obtain ⟨M, a, rfl⟩ : ∃ M a, L = M ++ [a] := by
    rcases List.eq_nil_or_concat L with rfl | ⟨M, a, rfl⟩
    · exact absurd rfl hne
    · exact ⟨M, a, List.concat_eq_append M a⟩
  have hga : (M ++ [a]).getLast hne = a := by
    have h1 := List.getLast?_eq_getLast (M ++ [a]) hne
    rw [List.getLast?_concat] at h1
    exact (Option.some_inj.mp h1).symm
  rw [hga] at hd ⊢
  have hmem : ∀ z ∈ M, z.depth ≤ d := by
    intro z hz
    have := (List.pairwise_append.mp hsort).2.2 z hz a (by simp)
    exact le_trans this hd
  rw [get_velocity_data_eq (List.getLast?_concat M) d i n, List.append_assoc]
  rw [show ([a] ++ [a] : List Layer) = [a, a] from rfl]
  rw [scanLayers_all_le M a a none none hmem hd hd]
  simp [gvdResult]

/-- Witness for C5 at a concrete one-layer profile queried below it. -/
theorem claim5_no_extrapolation_witness :
    get_velocity_data 7 layers1Ex true nameEx =
      some ⟨some 100, some 50, some 60, none, none,
            some nameEx, some nameEx, some nameEx, some nameEx, some nameEx⟩ :=
  claim5_no_extrapolation 7 layers1Ex nameEx (by decide) (by decide) (by decide) true

/-- Claim C6: the BBP line "1.00 5.00 2.89 2.70" parsed from depth 0 yields a
layer at depth-to-top 0 with vp 5000, vs 2890, density 2700 (×1000 unit
conversion, qp/qs absent); a layer parsed from the following line receives
depth-to-top 1000; blank lines and lines with a non-numeric leading token are
skipped; and every appended layer takes the accumulated depth. -/
theorem claim6_bbp_parse :
    parse_bbp_model bbpLine1 [] = some layersEx ∧
    parse_bbp_model bbpTwoLines [] =
      some [⟨0, some 5000, some 2890, some 2700, none, none⟩,
            ⟨1000, some 6000, some 3460, some 3000, none, none⟩] ∧
    (∀ st : ℚ × List Layer, bbpStep st strEmpty = some st) ∧
    (∀ (st : ℚ × List Layer) (line : String),
      is_number ((pysplit line).headD strEmpty) = false → bbpStep st line = some st) ∧
    (∀ (line : String) (d : ℚ) (L : List Layer) (r : ℚ × List Layer),
      bbpStep (d, L) line = some r → r.2 = L ∨ ∃ l, r.2 = L ++ [l] ∧ l.depth = d) := by
  exact ⟨by decide, by decide, fun st => rfl, bbpStep_skip, bbpStep_appends⟩

/-- Witness for C6 at concrete skipped and appended lines. -/
theorem claim6_bbp_parse_witness :
    bbpStep (3, ([] : List Layer)) lineHash = some (3, []) ∧
    (layersEx = [] ∨ ∃ l, layersEx = [] ++ [l] ∧ l.depth = 0) :=
  ⟨claim6_bbp_parse.2.2.2.1 (3, []) lineHash (by decide),
   claim6_bbp_parse.2.2.2.2 bbpLine1 0 [] (1000, layersEx) (by decide)⟩

/-- Claim C7 is falsified by the code: with no params option the default
profile "SCEC 1D" is looked up only in the model's packaged data directory —
the current-working-directory candidate is not in the path list at all. -/
theorem claim7_resolution_counterexample :
    queryPaths locEx none = [joinPath (joinPath locEx strData) (strScecName ++ strMdl)] ∧
    joinPath strDot (strScecName ++ strMdl) ∉ queryPaths locEx none := by
  refine ⟨rfl, by decide⟩

/-- Claim C7 amended: when a params option is supplied the profile file is
resolved by checking the current working directory first and then the model's
packaged data directory; when no params option is supplied the default
profile "SCEC 1D" is used and resolved only in the packaged data directory. -/
theorem claim7_resolution_amended (loc p : String) :
    queryPaths loc (some p) =
      [joinPath strDot (effectiveBase p ++ strMdl),
       joinPath (joinPath loc strData) (effectiveBase p ++ strMdl)] ∧
    queryPaths loc none = [joinPath (joinPath loc strData) (strScecName ++ strMdl)] ∧
    (∀ ex : String → Bool, ex (joinPath strDot (effectiveBase p ++ strMdl)) = true →
      resolveOrError ex (queryPaths loc (some p)) =
        Except.ok (joinPath strDot (effectiveBase p ++ strMdl))) := by
  refine ⟨rfl, rfl, ?_⟩
  intro ex h
  unfold queryPaths resolveOrError
  rw [List.find?_cons_of_pos _ h]

/-- Witness for the amended C7 theorem: with every path existing, resolution
picks the current-working-directory candidate. -/
theorem claim7_resolution_witness :
    resolveOrError exAll (queryPaths locEx (some paramEx)) =
      Except.ok (joinPath strDot (effectiveBase paramEx ++ strMdl)) :=
  (claim7_resolution_amended locEx paramEx).2.2 exAll rfl

/-- Claim C8: the query raises catalog error 13 exactly when no candidate
profile path exists; when resolution succeeds it returns the first existing
candidate (everything before it failed the existence check). -/
theorem claim8_error13 (ex : String → Bool) (loc : String) (params : Option String) :
    (resolveOrError ex (queryPaths loc params) = Except.error 13 ↔
      ∀ p ∈ queryPaths loc params, ex p = false) ∧
    (∀ p, resolveOrError ex (queryPaths loc params) = Except.ok p →
      ex p = true ∧ ∃ pre post, queryPaths loc params = pre ++ p :: post ∧
        ∀ q ∈ pre, ex q = false) :=
  ⟨resolveOrError_error_iff ex (queryPaths loc params),
   fun p h => resolveOrError_ok_first ex (queryPaths loc params) p h⟩

/-- Witness for C8 at a concrete existence predicate and path list. -/
theorem claim8_error13_witness :
    exAll (joinPath (joinPath locEx strData) (strScecName ++ strMdl)) = true ∧
    ∃ pre post, queryPaths locEx none =
        pre ++ (joinPath (joinPath locEx strData) (strScecName ++ strMdl)) :: post ∧
      ∀ q ∈ pre, exAll q = false :=
  (claim8_error13 exAll locEx none).2 (joinPath (joinPath locEx strData) (strScecName ++ strMdl)) rfl

/-- Claim C9: each depth-lookup call appends one duplicate of the final layer
to the caller's list, and any number of accumulated sentinel duplicates never
changes the lookup result for any depth, interpolation setting and name. -/
theorem claim9_sentinel_mutation (d : ℚ) (i : Bool) (n : String) (L : List Layer)
    (hne : L ≠ []) :
    mutatedLayers L = L ++ [L.getLast hne] ∧
    ∀ k : ℕ, get_velocity_data d (mutatedLayers^[k] L) i n = get_velocity_data d L i n := by
  constructor
  · unfold mutatedLayers
    rw [List.getLast?_eq_getLast L hne]
  · intro k
    induction k with
    | zero => rfl
    | succ m ih =>
      rw [Function.iterate_succ_apply',
          gvd_mutated d i n (mutatedLayers^[m] L) (mutatedLayers_iterate_ne_nil m hne), ih]

/-- Witness for C9: two accumulated sentinel copies leave the result at a
concrete profile unchanged. -/
theorem claim9_sentinel_mutation_witness :
    get_velocity_data 0 (mutatedLayers^[2] layers1Ex) true nameEx =
      get_velocity_data 0 layers1Ex true nameEx :=
  (claim9_sentinel_mutation 0 true nameEx layers1Ex (by decide)).2 2

/-- Claim C10: `sizeof_fmt` returns no value exactly on negative inputs and
inputs strictly between 0 and 1; every other input (0, 1, or greater than 1)
produces a formatted string. -/
theorem claim10_fallthrough_none (q : ℚ) :
    sizeof_fmt q = none ↔ q < 0 ∨ (0 < q ∧ q < 1) := by
  unfold sizeof_fmt
  split_ifs with h1 h2 h3
  · simp only [Option.some_ne_none, false_iff]
    push_neg
    exact ⟨by linarith, fun _ => by linarith⟩
  · subst h2
    simp
  · subst h3
    simp
  · simp only [true_iff]
    rcases lt_trichotomy q 0 with h | h | h
    · exact Or.inl h
    · exact absurd h h2
    · exact Or.inr ⟨h, lt_of_le_of_ne (not_lt.mp h1) h3⟩

end UCVM
